import Mathlib

/-!
Verification development for the stack-slot allocator / stack-reuse code
generator of a stack-machine backend (Yul → EVM code transform), together
with the assembly-adapter glue (`AsmCodeGen`).

The code transformer itself is modelled from the specification (its
implementation file is not part of the sources at hand; only its dedicated
test suite `test/libyul/StackReuseCodegen.cpp` and the adapter
`AsmCodeGen` are).  The model is validated below by reproducing, opcode by
opcode, the exact instruction sequences the repository's test suite pins
down for the relevant programs.
-/

namespace StackReuse

/-- EVM instruction subset used by the code-generator tests. -/
inductive Instr where
  | POP | MLOAD | MSTORE | SSTORE | CALLVALUE | ADDRESS | ADD | ISZERO | JUMP | JUMPI
  deriving DecidableEq, Repr

/-- Number of stack operands an instruction consumes. -/
def Instr.args : Instr → Nat
  | .POP => 1
  | .MLOAD => 1
  | .MSTORE => 2
  | .SSTORE => 2
  | .CALLVALUE => 0
  | .ADDRESS => 0
  | .ADD => 2
  | .ISZERO => 1
  | .JUMP => 1
  | .JUMPI => 2

/-- Number of stack results an instruction produces. -/
def Instr.rets : Instr → Nat
  | .MLOAD => 1
  | .CALLVALUE => 1
  | .ADDRESS => 1
  | .ADD => 1
  | .ISZERO => 1
  | _ => 0

/-- Abstract assembly items emitted by the code transformer.  `label` is a
jump destination (`JUMPDEST` with an abstract tag id), `labelRef` pushes a
tag (`PUSH <tag>`), `jump` is a `JUMP` together with the stack-height
adjustment the assembly adapter applies after it (`appendJump`'s
`_stackDiffAfter`), `funcBody` wraps the item stream of a function body
(which execution jumps over at its definition site), and `invalid` marks
an internal failure of the transformer (`markAsInvalid`). -/
inductive Item where
  | push (n : Nat)
  | instr (i : Instr)
  | dup (k : Int)
  | swap (k : Int)
  | label (l : Nat)
  | labelRef (l : Nat)
  | jump (adjustAfter : Int)
  | funcBody (body : List Item)
  | invalid
  deriving Repr

/-- Net stack-height effect of a single item on the fall-through execution
path; a `funcBody` is jumped over, so it contributes nothing at its
definition site, and a `jump` carries the adapter's deposit adjustment. -/
def Item.delta : Item → Int
  | .push _ => 1
  | .dup _ => 1
  | .labelRef _ => 1
  | .instr i => (i.rets : Int) - (i.args : Int)
  | .swap _ => 0
  | .label _ => 0
  | .jump adj => adj - 1
  | .funcBody _ => 0
  | .invalid => 0

/-- Net stack-height effect of an item sequence. -/
def netEffect (l : List Item) : Int := (l.map Item.delta).sum

/-- State of the code transformer: emitted items, tracked stack height,
variable-to-slot bindings (slots are absolute heights, bottom-based for the
current function frame), remaining reference counts, variables scheduled
for deletion, currently unused (dead but not yet popped) stack slots kept
sorted ascending, the next fresh label id, lazily allocated function entry
labels, and the not-yet-materialized return variables of the function
being compiled. -/
structure St where
  items : List Item
  height : Int
  vars : List (Nat × Int)
  refs : Nat → Int
  sched : List Nat
  unused : List Int
  nextLbl : Nat
  funcEntries : List (Nat × Nat)
  delayed : List Nat

/-- Append one item and track its stack effect. -/
def emit (it : Item) (s : St) : St :=
  { s with items := s.items ++ [it], height := s.height + it.delta }

/-- Remove a key from an association list. -/
def eraseA (m : List (Nat × Int)) (k : Nat) : List (Nat × Int) :=
  m.filter (fun p => p.1 ≠ k)

/-- Bind (or rebind) a key in an association list. -/
def setA (m : List (Nat × Int)) (k : Nat) (v : Int) : List (Nat × Int) :=
  (k, v) :: eraseA m k

/-- Insert into a sorted list of slots, keeping it sorted ascending. -/
def insSorted (x : Int) : List Int → List Int
  | [] => [x]
  | y :: ys => if x ≤ y then x :: y :: ys else y :: insSorted x ys

/-- Decrease the remaining reference count of a variable; on reaching zero
the variable is scheduled for deletion (`decreaseReference`). -/
def decRef (v : Nat) (s : St) : St :=
  let n := s.refs v - 1
  { s with
    refs := fun w => if w = v then n else s.refs w,
    sched := if n = 0 ∧ v ∉ s.sched then v :: s.sched else s.sched }

/-- Unbind a variable and mark its slot as unused (`deleteVariable`). -/
def deleteVar (v : Nat) (s : St) : St :=
  match (s.vars.lookup v) with
  | none => { s with sched := s.sched.erase v }
  | some slot =>
      { s with
        vars := eraseA s.vars v,
        unused := insSorted slot s.unused,
        sched := s.sched.erase v }

/-- Pop unused slots off the top of the stack while the topmost slot is
unused (the trailing loop of `freeUnusedVariables`). -/
def popRun : Nat → St → St
  | 0, s => s
  | fuel + 1, s =>
      if (s.height - 1) ∈ s.unused then
        let s1 := emit (.instr .POP) s
        popRun fuel { s1 with unused := s1.unused.erase (s.height - 1) }
      else s

/-- Modelled from the spec: `freeUnusedVariables` of the code transformer
(the transformer's implementation is not among the sources; behaviour fixed
by the spec's liveness-oracle contract and the test suite).  Variables
scheduled for deletion that belong to the current scope are unbound and
their slots marked unused, then unused slots are popped off the stack top. -/
def freeUnused (scopeIds : List Nat) (s : St) : St :=
  let s1 := (s.sched.filter (fun v => scopeIds.contains v)).foldl (fun st v => deleteVar v st) s
  popRun s1.unused.length s1

/-- Modelled from the spec: the binding loop of `VariableDeclaration`
code generation.  Declared variables are processed from the top of the
stack downwards; an unreferenced variable on top is popped at once, an
unreferenced buried one is scheduled, and a referenced one is moved into
the lowest unused slot (swap then pop) when one exists. -/
def bindLoop (h0 : Int) : List Nat → Bool → St → St
  | [], _, s => s
  | v :: rest, atTop, s =>
      let slot := h0 + rest.length
      let s := { s with vars := setA s.vars v slot }
      if s.refs v ≤ (0 : Int) then
        if atTop then
          bindLoop h0 rest true (emit (.instr .POP) { s with vars := eraseA s.vars v })
        else
          bindLoop h0 rest false { s with sched := if v ∈ s.sched then s.sched else v :: s.sched }
      else
        match s.unused with
        | [] => bindLoop h0 rest false s
        | u :: us =>
            let s := { s with vars := setA s.vars v u, unused := us }
            let diff := s.height - u
            let s := if diff > 1 then emit (.swap (diff - 1)) s else s
            bindLoop h0 rest atTop (emit (.instr .POP) s)

/-- Modelled from the spec: `generateAssignment`.  The freshly computed
value on the stack top is swapped down into the target variable's slot and
the superseded value popped; the reference consumed by the assignment
target is then released. -/
def genAssign (v : Nat) (s : St) : St :=
  match s.vars.lookup v with
  | none => decRef v (emit .invalid s)
  | some slot =>
      let diff := s.height - slot
      let s := if diff > 1 then emit (.swap (diff - 1)) s else s
      decRef v (emit (.instr .POP) s)

/-- Allocate (or look up) the entry label of a user-defined function. -/
def getFuncEntry (f : Nat) (s : St) : Nat × St :=
  match s.funcEntries.lookup f with
  | some l => (l, s)
  | none =>
      (s.nextLbl,
        { s with nextLbl := s.nextLbl + 1, funcEntries := (f, s.nextLbl) :: s.funcEntries })

end StackReuse

namespace StackReuse

/-- Expressions of the scope-resolved IR consumed by the code transformer.
Identifiers are resolved variable ids (the input IR is already analyzed and
scope-resolved, so names are globally disambiguated); `call` is a builtin
call compiled to a machine instruction; `ucall` is a call of a user-defined
function with its statically known number of return values. -/
inductive Expr where
  | lit (n : Nat)
  | ident (v : Nat)
  | call (b : Instr) (args : List Expr)
  | ucall (f : Nat) (nrets : Nat) (args : List Expr)
  deriving Repr

/-- Statements of the block-structured IR: blocks, variable declarations
(with an initializer or zero-initialized), multi-assignments, expression
statements, conditionals, for-loops with the special pre/body scope pair,
and function definitions. -/
inductive Stmt where
  | block (body : List Stmt)
  | varDecl (ds : List Nat) (e : Expr)
  | varDeclZero (ds : List Nat)
  | assign (ts : List Nat) (e : Expr)
  | exprStmt (e : Expr)
  | ifStmt (c : Expr) (body : List Stmt)
  | forStmt (pre : List Stmt) (c : Expr) (post : List Stmt) (body : List Stmt)
  | funDef (f : Nat) (params : List Nat) (rets : List Nat) (body : List Stmt)
  deriving Repr

mutual
/-- Weighted reference count of a variable in an expression. -/
def wRefsE (v : Nat) : Expr → Int
  | .lit _ => 0
  | .ident w => if w = v then 1 else 0
  | .call _ args => wRefsEL v args
  | .ucall _ _ args => wRefsEL v args
/-- Weighted reference count of a variable in an expression list. -/
def wRefsEL (v : Nat) : List Expr → Int
  | [] => 0
  | e :: es => wRefsE v e + wRefsEL v es
end

mutual
/-- Modelled from the spec: the variable-reference counter that seeds the
liveness oracle (its implementation is not among the sources).  References
inside a loop's condition, post and body are counted twice, accounting for
the loop's back edge, and every return variable receives one extra
reference for its implicit use at the function exit. -/
def wRefsS (v : Nat) : Stmt → Int
  | .block ss => wRefsSL v ss
  | .varDecl _ e => wRefsE v e
  | .varDeclZero _ => 0
  | .assign ts e => (ts.count v : Int) + wRefsE v e
  | .exprStmt e => wRefsE v e
  | .ifStmt c body => wRefsE v c + wRefsSL v body
  | .forStmt pre c post body =>
      wRefsSL v pre + 2 * (wRefsE v c + wRefsSL v post + wRefsSL v body)
  | .funDef _ _ rets body => (if v ∈ rets then 1 else 0) + wRefsSL v body
/-- Weighted reference count of a variable in a statement list. -/
def wRefsSL (v : Nat) : List Stmt → Int
  | [] => 0
  | st :: ss => wRefsS v st + wRefsSL v ss
end

/-- Variable ids declared by a single statement (at its own level). -/
def declIds : Stmt → List Nat
  | .varDecl ds _ => ds
  | .varDeclZero ds => ds
  | _ => []

/-- Variable ids declared at the top level of a statement list: the
identifier set of the corresponding scope. -/
def declsOf (ss : List Stmt) : List Nat :=
  ss.foldr (fun st acc => declIds st ++ acc) []

/-- Modelled from the spec: which statements force the delayed return
variables to be materialized.  Expression statements and assignments delay
the setup unless they reference a return variable; function definitions
never force it; every other construct does. -/
def triggersSetup (rets : List Nat) : Stmt → Bool
  | .exprStmt e => rets.any (fun r => decide (0 < wRefsE r e))
  | .assign ts e => rets.any (fun r => decide (0 < (ts.count r : Int) + wRefsE r e))
  | .funDef _ _ _ _ => false
  | _ => true

mutual
/-- Modelled from the spec: expression code generation.  Literals are
pushed, identifiers are duplicated from their slot (releasing one
reference), builtin calls evaluate their arguments right to left and emit
the instruction, and user calls push the return label, the arguments in
reverse and jump to the function's entry. -/
def compileExpr : Expr → St → St
  | .lit n, s => emit (.push n) s
  | .ident v, s =>
      (match s.vars.lookup v with
       | none => decRef v (emit .invalid s)
       | some slot => decRef v (emit (.dup (s.height - slot)) s))
  | .call b args, s => emit (.instr b) (compileArgs args s)
  | .ucall f nrets args, s =>
      let retLbl := s.nextLbl
      let s1 := { s with nextLbl := retLbl + 1 }
      let s2 := compileArgs args (emit (.labelRef retLbl) s1)
      let p := getFuncEntry f s2
      let s3 := emit (.jump ((nrets : Int) - args.length - 1)) (emit (.labelRef p.1) p.2)
      emit (.label retLbl) s3
/-- Evaluate call arguments right to left. -/
def compileArgs : List Expr → St → St
  | [], s => s
  | e :: es, s => compileExpr e (compileArgs es s)
end

/-- Modelled from the spec: materialize one delayed return variable, by
pushing a zero and moving it into the lowest unused slot when one exists. -/
def setupOneRet (r : Nat) (s : St) : St :=
  let h0 := s.height
  let s := emit (.push 0) s
  match s.unused with
  | [] => { s with vars := setA s.vars r h0 }
  | u :: us =>
      let s := { s with vars := setA s.vars r u, unused := us }
      let diff := s.height - u
      let s := if diff > (1 : Int) then emit (.swap (diff - 1)) s else s
      emit (.instr .POP) s

/-- Materialize all delayed return variables, in declaration order. -/
def setupRets (s : St) : St :=
  s.delayed.foldl (fun st r => setupOneRet r st) { s with delayed := [] }

/-- Modelled from the spec: scope exit.  Remaining dead slots are freed,
discards restore the base depth recorded at scope entry, and the scope's
names go out of binding. -/
def finalizeScope (scopeIds : List Nat) (base : Int) (s : St) : St :=
  let s := freeUnused scopeIds s
  let s := (List.range (s.height - base).toNat).foldl (fun st _ => emit (.instr .POP) st) s
  { s with vars := s.vars.filter (fun p => !scopeIds.contains p.1),
           sched := s.sched.filter (fun v => !scopeIds.contains v),
           unused := s.unused.filter (fun u => decide (u < base)) }

/-- Ascending list `[0, 1, ..., n-1]` as layout targets. -/
def identList (n : Nat) : List Int := (List.range n).map (fun i => (i : Int))

/-- Exchange position `i` of a layout with its last position (the stack
top); out-of-range indices leave the layout unchanged. -/
def swapLast (l : List Int) (i : Nat) : List Int :=
  match l.getLast? with
  | none => l
  | some a =>
      let front := l.dropLast
      front.set i a ++ [front.getD i a]

/-- Modelled from the spec: the function-exit reshuffling loop.  The layout
records, for every stack position, the target position of its content (or
`-1` for a value to be deleted); while the top entry is not in place, a
deletable top is popped and otherwise the top is swapped into its target
position; on exit the layout must be the identity, else code generation is
marked invalid. -/
def runShuffle : Nat → List Int → St → St
  | 0, _, s => emit .invalid s
  | fuel + 1, layout, s =>
      match layout.getLast? with
      | none => s
      | some last =>
          if last = (layout.length : Int) - 1 then
            if layout = identList layout.length then s else emit .invalid s
          else if last < 0 then
            runShuffle fuel layout.dropLast (emit (.instr .POP) s)
          else
            runShuffle fuel (swapLast layout last.toNat)
              (emit (.swap ((layout.length : Int) - last - 1)) s)

/-- Target layout at function exit: position 0 (the return tag) must end up
above the return values, return variable `i` at position `i`, and every
other live slot is deletable. -/
def buildExitLayout (rets : List Nat) (s : St) : List Int :=
  (List.range s.height.toNat).map (fun p =>
    if p = 0 then (rets.length : Int)
    else
      match rets.findIdx? (fun r => s.vars.lookup r == some (p : Int)) with
      | some i => (i : Int)
      | none => -1)

/-- Whether a statement is a function definition (these are jumped over in
the enclosing statement stream). -/
def Stmt.isFunDef : Stmt → Bool
  | .funDef _ _ _ _ => true
  | _ => false

mutual
/-- Modelled from the spec: statement code generation of the code
transformer (single depth-first traversal driving scope tracking, liveness
queries, slot reuse and shuffle planning).  A function definition is
compiled in a fresh frame whose stack holds the return tag below the
parameters (first parameter topmost); unreferenced parameters are scheduled
for deletion at entry, return variables are delayed, and the exit sequence
reshuffles the frame to leave exactly the return values below the return
tag before jumping back. -/
def compileStmt (scopeIds : List Nat) : Stmt → St → St
  | .block body, s =>
      let innerIds := declsOf body
      let base := s.height
      finalizeScope innerIds base (visitStmts innerIds body none s)
  | .varDecl ds e, s =>
      let h0 := s.height
      let s := compileExpr e s
      let s := freeUnused scopeIds s
      bindLoop h0 ds.reverse true s
  | .varDeclZero ds, s =>
      let h0 := s.height
      let s := (List.range ds.length).foldl (fun st _ => emit (.push 0) st) s
      let s := freeUnused scopeIds s
      bindLoop h0 ds.reverse true s
  | .assign ts e, s =>
      let s := compileExpr e s
      ts.reverse.foldl (fun st v => genAssign v st) s
  | .exprStmt e, s => compileExpr e s
  | .ifStmt c body, s =>
      let s := compileExpr c s
      let s := emit (.instr .ISZERO) s
      let endLbl := s.nextLbl
      let s := { s with nextLbl := endLbl + 1 }
      let s := emit (.instr .JUMPI) (emit (.labelRef endLbl) s)
      let innerIds := declsOf body
      let base := s.height
      let s := finalizeScope innerIds base (visitStmts innerIds body none s)
      emit (.label endLbl) s
  | .forStmt pre c post body, s =>
      let preIds := declsOf pre
      let base := s.height
      let s := visitStmts preIds pre none s
      let loopStart := s.nextLbl
      let loopEnd := s.nextLbl + 1
      let postPart := s.nextLbl + 2
      let s := { s with nextLbl := s.nextLbl + 3 }
      let s := emit (.label loopStart) s
      let s := compileExpr c s
      let s := emit (.instr .JUMPI) (emit (.labelRef loopEnd) (emit (.instr .ISZERO) s))
      let bodyIds := declsOf body
      let bodyBase := s.height
      let s := finalizeScope bodyIds bodyBase (visitStmts bodyIds body none s)
      let s := emit (.label postPart) s
      let postIds := declsOf post
      let postBase := s.height
      let s := finalizeScope postIds postBase (visitStmts postIds post none s)
      let s := emit (.jump 0) (emit (.labelRef loopStart) s)
      let s := emit (.label loopEnd) s
      finalizeScope preIds base s
  | .funDef f params rets body, s =>
      let p := getFuncEntry f s
      let entry := p.1
      let s := p.2
      let inner0 : St :=
        { items := [], height := params.length + 1,
          vars := params.enum.map (fun q => (q.2, ((params.length - q.1 : Nat) : Int))),
          refs := s.refs,
          sched := params.filter (fun v => decide (s.refs v ≤ (0 : Int))),
          unused := [], nextLbl := s.nextLbl, funcEntries := s.funcEntries,
          delayed := rets }
      let bodyIds := params ++ rets ++ declsOf body
      let inner := visitStmts bodyIds body none (emit (.label entry) inner0)
      let inner := if inner.delayed.isEmpty then inner else setupRets inner
      let exitLbl := inner.nextLbl
      let inner := { inner with nextLbl := exitLbl + 1 }
      let inner := emit (.label exitLbl) inner
      let inner := runShuffle (2 * inner.height.toNat + 2) (buildExitLayout rets inner) inner
      let inner := emit (.jump 0) inner
      { s with items := s.items ++ [.funcBody inner.items],
               nextLbl := inner.nextLbl, refs := inner.refs, funcEntries := inner.funcEntries }

/-- Modelled from the spec: the statement-list traversal.  Dead variables
of the current scope are freed before every statement, runs of function
definitions are jumped over, and delayed return variables are materialized
before the first statement that requires them. -/
def visitStmts (scopeIds : List Nat) : List Stmt → Option Nat → St → St
  | [], jt, s =>
      let s := freeUnused scopeIds s
      (match jt with
       | some l => emit (.label l) s
       | none => s)
  | st :: rest, jt, s =>
      let s := freeUnused scopeIds s
      if st.isFunDef then
        match jt with
        | some l => visitStmts scopeIds rest (some l) (compileStmt scopeIds st s)
        | none =>
            let l := s.nextLbl
            let s := { s with nextLbl := l + 1 }
            let s := emit (.jump 0) (emit (.labelRef l) s)
            visitStmts scopeIds rest (some l) (compileStmt scopeIds st s)
      else
        let s := (match jt with
                  | some l => emit (.label l) s
                  | none => s)
        let s := if s.delayed.isEmpty then s
                 else if triggersSetup s.delayed st then setupRets s else s
        visitStmts scopeIds rest none (compileStmt scopeIds st s)
end

/-- Initial reference counts of a program. -/
def refsFor (prog : List Stmt) : Nat → Int := fun v => wRefsSL v prog

/-- Initial transformer state for a top-level program block. -/
def initSt (prog : List Stmt) : St :=
  { items := [], height := 0, vars := [], refs := refsFor prog,
    sched := [], unused := [], nextLbl := 0, funcEntries := [], delayed := [] }

/-- Compile a top-level block: traverse its statements and restore the
empty base depth at exit. -/
def compileProgram (prog : List Stmt) : List Item :=
  (finalizeScope (declsOf prog) 0 (visitStmts (declsOf prog) prog none (initSt prog))).items

end StackReuse

namespace StackReuse

mutual
/-- References of a variable in a statement as consumed by the single
code-generation traversal (each loop part visited once, no implicit
return-variable reference). -/
def onceS (v : Nat) : Stmt → Int
  | .block ss => onceSL v ss
  | .varDecl _ e => wRefsE v e
  | .varDeclZero _ => 0
  | .assign ts e => (ts.count v : Int) + wRefsE v e
  | .exprStmt e => wRefsE v e
  | .ifStmt c body => wRefsE v c + onceSL v body
  | .forStmt pre c post body => onceSL v pre + wRefsE v c + onceSL v post + onceSL v body
  | .funDef _ _ _ body => onceSL v body
/-- References of a variable in a statement list, single-traversal count. -/
def onceSL (v : Nat) : List Stmt → Int
  | [] => 0
  | st :: ss => onceS v st + onceSL v ss
end

mutual
/-- All variable ids bound anywhere inside a statement (declarations,
parameters and return variables). -/
def bindersS : Stmt → List Nat
  | .block body => bindersL body
  | .varDecl ds _ => ds
  | .varDeclZero ds => ds
  | .ifStmt _ body => bindersL body
  | .forStmt pre _ post body => bindersL pre ++ bindersL post ++ bindersL body
  | .funDef _ params rets body => params ++ rets ++ bindersL body
  | _ => []
/-- All variable ids bound anywhere inside a statement list. -/
def bindersL : List Stmt → List Nat
  | [] => []
  | st :: ss => bindersS st ++ bindersL ss
end

/-- Number of values an expression leaves on the stack. -/
def retsE : Expr → Nat
  | .lit _ => 1
  | .ident _ => 1
  | .call b _ => b.rets
  | .ucall _ m _ => m

mutual
/-- Arity well-formedness of expressions: builtin calls have the right
number of arguments and every argument is single-valued. -/
def wfE : Expr → Bool
  | .lit _ => true
  | .ident _ => true
  | .call b args => (args.length == b.args) && wfEL args
  | .ucall _ _ args => wfEL args
/-- Arity well-formedness of argument lists. -/
def wfEL : List Expr → Bool
  | [] => true
  | e :: es => wfE e && (retsE e == 1) && wfEL es
end

mutual
/-- Arity well-formedness of statements: declaration and assignment value
counts match, expression statements leave nothing, conditions are
single-valued. -/
def wfS : Stmt → Bool
  | .block body => wfSL body
  | .varDecl ds e => (retsE e == ds.length) && wfE e && !ds.isEmpty
  | .varDeclZero ds => !ds.isEmpty
  | .assign ts e => (retsE e == ts.length) && wfE e && !ts.isEmpty
  | .exprStmt e => (retsE e == 0) && wfE e
  | .ifStmt c body => wfE c && (retsE c == 1) && wfSL body
  | .forStmt pre c post body => wfSL pre && wfE c && (retsE c == 1) && wfSL post && wfSL body
  | .funDef _ _ _ body => wfSL body
/-- Arity well-formedness of statement lists. -/
def wfSL : List Stmt → Bool
  | [] => true
  | st :: ss => wfS st && wfSL ss
end

/-- Whether an item is a plain discard. -/
def isPop : Item → Bool
  | .instr .POP => true
  | _ => false

/-- Whether an item is a duplicate. -/
def isDup : Item → Bool
  | .dup _ => true
  | _ => false

/-- Number of discards in an item stream (top level). -/
def countPops (l : List Item) : Nat := (l.filter isPop).length

/-- Number of duplicates in an item stream (top level). -/
def countDups (l : List Item) : Nat := (l.filter isDup).length

/-- The function bodies appearing in an item stream. -/
def funcBodies : List Item → List (List Item)
  | [] => []
  | .funcBody b :: rest => b :: funcBodies rest
  | _ :: rest => funcBodies rest

/-- Length of the leading run of discards. -/
def leadPops : List Item → Nat
  | .instr .POP :: rest => leadPops rest + 1
  | _ => 0

/-- Whether a push of the constant zero is immediately followed by a jump
destination somewhere in the stream. -/
def hasInitBeforeLabel : List Item → Bool
  | .push 0 :: .label _ :: _ => true
  | _ :: rest => hasInitBeforeLabel rest
  | [] => false

/-- Whether the stream contains a top-level invalid marker. -/
def hasInvalid : List Item → Bool
  | [] => false
  | .invalid :: _ => true
  | _ :: rest => hasInvalid rest

/-- Program of test `single_var`: `{ let x }`. -/
def progSingleVar : List Stmt := [.varDeclZero [0]]

/-- Program of test `multi_reuse_single_slot`:
`{ let x := 1 x := 6 let y := 2 y := 4 }`. -/
def progMultiReuse : List Stmt :=
  [.varDecl [0] (.lit 1), .assign [0] (.lit 6), .varDecl [1] (.lit 2), .assign [1] (.lit 4)]

/-- Program of test `multi_reuse_single_slot_nested`:
`{ let x := 1 x := 6 { let y := 2 y := 4 } }`. -/
def progMultiReuseNested : List Stmt :=
  [.varDecl [0] (.lit 1), .assign [0] (.lit 6),
   .block [.varDecl [1] (.lit 2), .assign [1] (.lit 4)]]

/-- Program of test `for_1`:
`{ for { let z := 0 } 1 { } { let x := 3 } let t := 2 }` (z is 0, x is 1,
t is 2). -/
def progFor1 : List Stmt :=
  [.forStmt [.varDecl [0] (.lit 0)] (.lit 1) [] [.varDecl [1] (.lit 3)],
   .varDecl [2] (.lit 2)]

/-- Program of test `for_2`:
`{ for { let z := 0 } 1 { } { z := 8 let x := 3 } let t := 2 }`. -/
def progFor2 : List Stmt :=
  [.forStmt [.varDecl [0] (.lit 0)] (.lit 1) [] [.assign [0] (.lit 8), .varDecl [1] (.lit 3)],
   .varDecl [2] (.lit 2)]

/-- Program of test `function_params_and_retparams_partly_unused`:
`function f(a, b, c, d) -> x, y { b := 3 let s := 9 y := 2 mstore(s, y) }`
with a..d as 0..3, x as 4, y as 5, s as 6. -/
def progFnPartlyUnused : List Stmt :=
  [.funDef 100 [0, 1, 2, 3] [4, 5]
    [.assign [1] (.lit 3), .varDecl [6] (.lit 9), .assign [5] (.lit 2),
     .exprStmt (.call .MSTORE [.ident 6, .ident 5])]]

/-- Program of test `function_argument_reuse`:
`function f(a, b, c) -> x { pop(address()) sstore(a, c) pop(callvalue())
x := b }` with a as 0, b as 1, c as 2, x as 3. -/
def progFnArgReuse : List Stmt :=
  [.funDef 100 [0, 1, 2] [3]
    [.exprStmt (.call .POP [.call .ADDRESS []]),
     .exprStmt (.call .SSTORE [.ident 0, .ident 2]),
     .exprStmt (.call .POP [.call .CALLVALUE []]),
     .assign [3] (.ident 1)]]

/-- Program of test `function_retparam_unassigned`:
`function f() -> x { pop(callvalue()) }` with x as 0. -/
def progFnRetUnassigned : List Stmt :=
  [.funDef 100 [] [0] [.exprStmt (.call .POP [.call .CALLVALUE []])]]

/-- Program of test `function_retparam_declaration`:
`function f() -> x { pop(address()) let y := callvalue() }` with x as 0 and
y as 1. -/
def progFnRetDecl : List Stmt :=
  [.funDef 100 [] [0]
    [.exprStmt (.call .POP [.call .ADDRESS []]), .varDecl [1] (.call .CALLVALUE [])]]

/-- Program of test `function_retparam_read`:
`function f() -> x { pop(address()) sstore(0, x) pop(callvalue()) }`. -/
def progFnRetRead : List Stmt :=
  [.funDef 100 [] [0]
    [.exprStmt (.call .POP [.call .ADDRESS []]),
     .exprStmt (.call .SSTORE [.lit 0, .ident 0]),
     .exprStmt (.call .POP [.call .CALLVALUE []])]]

/-- Program of test `reuse_on_decl_assign_to_last_used`:
`{ let x := 5 let y := x sstore(y, y) }` with x as 0 and y as 1. -/
def progDeclLastUsed : List Stmt :=
  [.varDecl [0] (.lit 5), .varDecl [1] (.ident 0),
   .exprStmt (.call .SSTORE [.ident 1, .ident 1])]

/-- Program of test `reuse_on_decl_assign_to_not_last_used`:
`{ let x := 5 let y := x sstore(y, x) }`. -/
def progDeclNotLastUsed : List Stmt :=
  [.varDecl [0] (.lit 5), .varDecl [1] (.ident 0),
   .exprStmt (.call .SSTORE [.ident 1, .ident 0])]

/-- Program of test `reuse_on_decl_assign_not_same_scope`:
`{ let x := 5 { let y := x sstore(y, y) } }`. -/
def progDeclNotSameScope : List Stmt :=
  [.varDecl [0] (.lit 5),
   .block [.varDecl [1] (.ident 0), .exprStmt (.call .SSTORE [.ident 1, .ident 1])]]

/-- Program of test `function_params`: `function f(a, b) { }`. -/
def progFnParams : List Stmt := [.funDef 100 [0, 1] [] []]

/-- Program of test `functions_multi_return` (f is 100 with params 0, 1 and
return 2; g is 101 with returns 3, 4; x y z unused are 5..8). -/
def progFnMultiReturn : List Stmt :=
  [.funDef 100 [0, 1] [2] [], .funDef 101 [] [3, 4] [],
   .varDecl [5] (.ucall 100 1 [.lit 1, .lit 2]),
   .assign [5] (.ucall 100 1 [.lit 3, .lit 4]),
   .varDecl [6, 7] (.ucall 101 2 []),
   .assign [6, 7] (.ucall 101 2 []),
   .varDecl [8] (.lit 7)]

end StackReuse

namespace Planner

/-- Shuffle operations of the planner: duplicate from a depth, swap the top
with a depth, or discard the top. -/
inductive SOp where
  | dup (depth : Nat)
  | swapDepth (depth : Nat)
  | discard
  deriving DecidableEq, Repr

/-- Modelled from the spec: whether a stack layout satisfies a target
layout of `(position, requiredVariableOrNone)` pairs; a position with no
required variable accepts any occupant. -/
def matchesTgt (cur tgt : List (Option Nat)) : Bool :=
  (cur.length == tgt.length) &&
  (List.zip cur tgt).all (fun p => p.2 == none || p.1 == p.2)

/-- Exchange position `i` of a layout with the top. -/
def swapTopAt (cur : List (Option Nat)) (i : Nat) : List (Option Nat) :=
  match cur.getLast? with
  | none => cur
  | some a =>
      let front := cur.dropLast
      front.set i a ++ [front.getD i a]

/-- Modelled from the spec: one greedy step of the shuffle planner (the
planner's implementation is not among the sources).  The lowest mismatched
position is located; if the required value is on top it is swapped into
place, if it sits elsewhere it is brought to the top (duplicated when its
current slot is itself required), and a fully matched prefix with surplus
height discards the top. -/
def planStep (cur tgt : List (Option Nat)) : Option (SOp × List (Option Nat)) :=
  match (List.range tgt.length).find?
      (fun i => !(tgt.getD i none == none || cur.getD i none == tgt.getD i none)) with
  | none =>
      if tgt.length < cur.length then some (.discard, cur.dropLast) else none
  | some i =>
      match tgt.getD i none with
      | none => none
      | some v =>
          if cur.getLast? == some (some v) then
            some (.swapDepth (cur.length - 1 - i), swapTopAt cur i)
          else
            match cur.findIdx? (fun c => c == some v) with
            | none => none
            | some j =>
                if tgt.getD j none == some v then
                  some (.dup (cur.length - 1 - j), cur ++ [some v])
                else
                  some (.swapDepth (cur.length - 1 - j), swapTopAt cur j)

/-- Modelled from the spec: `reconcile` of the Shuffle Planner.  The greedy
fixpoint loop stops as soon as the current layout satisfies the target and
otherwise applies one step; irreconcilable layouts (or fuel exhaustion)
yield `none`. -/
def reconcile (fuel : Nat) (cur tgt : List (Option Nat)) :
    Option (List SOp × List (Option Nat)) :=
  match fuel with
  | 0 => none
  | fuel + 1 =>
      if matchesTgt cur tgt then some ([], cur)
      else
        match planStep cur tgt with
        | none => none
        | some q =>
            match reconcile fuel q.2 tgt with
            | none => none
            | some r => some (q.1 :: r.1, r.2)

end Planner

namespace AsmCodeGen

/-- A `StackTooDeepError` as seen by `CodeGenerator::assemble`: only its
optional context message matters there (`_e.comment()`). -/
structure StackTooDeepError where
  comment : Option String

/-- Errors surfaced by assembly: a user-facing `CompilerError` thrown via
`assertThrow`, or an internal `yulAssert` failure. -/
inductive AssembleError where
  | compilerError (msg : String)
  | assertionFailure (msg : String)

/-- Outcome of running the code transform over the parsed block: either it
completes, leaving its recorded stack errors, or it throws a
`StackTooDeepError`. -/
inductive TransformOutcome where
  | completed (stackErrors : List StackTooDeepError)
  | threw (e : StackTooDeepError)

/-- The stack errors left behind by a transform outcome. -/
def stackErrorsOf : TransformOutcome → List StackTooDeepError
  | .completed errs => errs
  | .threw _ => []

/-- Embedding of `yulAssert`: an assertion that fails as an internal
error. -/
def yulAssert (cond : Bool) (msg : String) : Except AssembleError Unit :=
  if cond then .ok () else .error (.assertionFailure msg)

/-- The message `CodeGenerator::assemble` attaches to a caught
`StackTooDeepError`. -/
def stackTooDeepMessage (e : StackTooDeepError) : String :=
  "Stack too deep when compiling inline assembly" ++
    (match e.comment with
     | some c => ": " ++ c
     | none => ".")

/-- Embedding of `CodeGenerator::assemble` (AsmCodeGen.cpp): the transform
is run inside a try block; a `StackTooDeepError` is caught and re-raised as
a user-facing `CompilerError` carrying the fault's context message, and
afterwards `yulAssert` checks that no recorded stack error was left
unthrown. -/
def assemble (t : TransformOutcome) : Except AssembleError Unit :=
  match t with
  | .threw e => .error (.compilerError (stackTooDeepMessage e))
  | .completed errs => yulAssert errs.isEmpty "Stack errors present but not thrown."

/-- Embedding of `EthAssemblyAdapter::appendBeginsub`: unconditionally a
failing assertion. -/
def appendBeginsub (lbl : Nat) (arguments : Int) : Except AssembleError Unit :=
  yulAssert false "BEGINSUB not implemented for EVM 1.0"

/-- Embedding of `EthAssemblyAdapter::appendJumpsub`: unconditionally a
failing assertion. -/
def appendJumpsub (lbl : Nat) (arguments returns : Int) : Except AssembleError Unit :=
  yulAssert false "JUMPSUB not implemented for EVM 1.0"

/-- Embedding of `EthAssemblyAdapter::appendReturnsub`: unconditionally a
failing assertion. -/
def appendReturnsub (returns stackDiffAfter : Int) : Except AssembleError Unit :=
  yulAssert false "RETURNSUB not implemented for EVM 1.0"

end AsmCodeGen

namespace StackReuse

/-- One compilation step only appends items, and the tracked stack height
moves exactly by the net effect of the appended items. -/
def Extends (s t : St) : Prop :=
  ∃ d, t.items = s.items ++ d ∧ netEffect d = t.height - s.height

/-- Structural well-formedness of a transformer state: unused slots are
distinct and below the stack height, bound slots are distinct, below the
height and never unused. -/
structure GoodSt (s : St) : Prop where
  unusedLt : ∀ u ∈ s.unused, u < s.height
  unusedNodup : s.unused.Nodup
  varsLt : ∀ p ∈ s.vars, p.2 < s.height
  varsSlotNodup : (s.vars.map Prod.snd).Nodup
  varsUnusedDisj : ∀ p ∈ s.vars, p.2 ∉ s.unused

/-- Base-depth invariant relative to a scope base `B` for the ids `X` that
may still be bound or deleted: the height never falls below `B`, the slot
right below the base is neither unused nor bound to any id of `X`. -/
structure HInv (B : Int) (X : List Nat) (s : St) : Prop where
  hgt : B ≤ s.height
  unusedB : (B - 1) ∉ s.unused
  varsB : ∀ p ∈ s.vars, p.1 ∈ X → p.2 ≠ B - 1

/-- The state right after compiling a for-loop's init statements (the
loop's "pre" scope is entered but not yet finalized). -/
def forAfterPre (pre : List Stmt) (s : St) : St :=
  visitStmts (declsOf pre) pre none s

/-- The state of a for-loop compilation up to and including the loop-exit
label, i.e. everything except the final retirement of the "pre" scope. -/
def forBeforeFinal (pre : List Stmt) (c : Expr) (post body : List Stmt) (s : St) : St :=
  let s := forAfterPre pre s
  let loopStart := s.nextLbl
  let loopEnd := s.nextLbl + 1
  let postPart := s.nextLbl + 2
  let s := { s with nextLbl := s.nextLbl + 3 }
  let s := emit (.label loopStart) s
  let s := compileExpr c s
  let s := emit (.instr .JUMPI) (emit (.labelRef loopEnd) (emit (.instr .ISZERO) s))
  let s := finalizeScope (declsOf body) s.height (visitStmts (declsOf body) body none s)
  let s := emit (.label postPart) s
  let s := finalizeScope (declsOf post) s.height (visitStmts (declsOf post) post none s)
  let s := emit (.jump 0) (emit (.labelRef loopStart) s)
  emit (.label loopEnd) s

/-- The nonnegative entries of a layout. -/
def nonnegs (l : List Int) : List Int := l.filter (fun x => decide (0 ≤ x))

end StackReuse

/-!
Theorems.  The model-validation lemmas check the model against the exact
instruction sequences of `test/libyul/StackReuseCodegen.cpp`; the claim
theorems follow.
-/

namespace StackReuse

set_option maxRecDepth 40000
set_option maxHeartbeats 16000000

/-- The model's output for `progSingleVar`, as pinned by test `single_var`. -/
theorem model_singleVar : compileProgram progSingleVar = [.push 0, .instr .POP] := rfl

/-- The model's output for `progMultiReuse`, as pinned by test
`multi_reuse_single_slot`. -/
theorem model_multiReuse :
    compileProgram progMultiReuse =
      [.push 1, .push 6, .swap 1, .instr .POP, .instr .POP,
       .push 2, .push 4, .swap 1, .instr .POP, .instr .POP] := rfl

/-- The model's output for `progMultiReuseNested`, as pinned by test
`multi_reuse_single_slot_nested`. -/
theorem model_multiReuseNested :
    compileProgram progMultiReuseNested =
      [.push 1, .push 6, .swap 1, .instr .POP, .instr .POP,
       .push 2, .push 4, .swap 1, .instr .POP, .instr .POP] := rfl

/-- The model's output for `progDeclLastUsed`, as pinned by test
`reuse_on_decl_assign_to_last_used`. -/
theorem model_declLastUsed :
    compileProgram progDeclLastUsed =
      [.push 5, .dup 1, .swap 1, .instr .POP, .dup 1, .dup 2, .instr .SSTORE,
       .instr .POP] := rfl

/-- The model's output for `progDeclNotLastUsed`, as pinned by test
`reuse_on_decl_assign_to_not_last_used`. -/
theorem model_declNotLastUsed :
    compileProgram progDeclNotLastUsed =
      [.push 5, .dup 1, .dup 2, .dup 2, .instr .SSTORE, .instr .POP, .instr .POP] := rfl

/-- The model's output for `progDeclNotSameScope`, as pinned by test
`reuse_on_decl_assign_not_same_scope`. -/
theorem model_declNotSameScope :
    compileProgram progDeclNotSameScope =
      [.push 5, .dup 1, .dup 1, .dup 2, .instr .SSTORE, .instr .POP, .instr .POP] := rfl

/-- The model's output for `progFnPartlyUnused`, as pinned by test
`function_params_and_retparams_partly_unused`. -/
theorem model_fnPartlyUnused :
    compileProgram progFnPartlyUnused =
      [.labelRef 0, .jump 0,
       .funcBody [.label 1, .instr .POP, .push 3, .swap 1, .instr .POP, .instr .POP,
         .instr .POP, .instr .POP, .push 0, .push 0, .push 9, .push 2, .swap 2, .instr .POP,
         .dup 2, .dup 2, .instr .MSTORE, .instr .POP, .label 2, .swap 1, .swap 2, .jump 0],
       .label 0] := rfl

/-- The model's output for `progFnArgReuse`, as pinned by test
`function_argument_reuse`. -/
theorem model_fnArgReuse :
    compileProgram progFnArgReuse =
      [.labelRef 0, .jump 0,
       .funcBody [.label 1, .instr .ADDRESS, .instr .POP, .dup 3, .dup 2, .instr .SSTORE,
         .instr .POP, .instr .CALLVALUE, .instr .POP, .push 0, .swap 2, .instr .POP,
         .dup 1, .swap 2, .instr .POP, .instr .POP, .label 2, .swap 1, .jump 0],
       .label 0] := rfl

/-- The model's output for `progFnRetUnassigned`, as pinned by test
`function_retparam_unassigned`. -/
theorem model_fnRetUnassigned :
    compileProgram progFnRetUnassigned =
      [.labelRef 0, .jump 0,
       .funcBody [.label 1, .instr .CALLVALUE, .instr .POP, .push 0, .label 2, .swap 1,
         .jump 0],
       .label 0] := rfl

/-- The model's output for `progFnRetDecl`, as pinned by test
`function_retparam_declaration`. -/
theorem model_fnRetDecl :
    compileProgram progFnRetDecl =
      [.labelRef 0, .jump 0,
       .funcBody [.label 1, .instr .ADDRESS, .instr .POP, .push 0, .instr .CALLVALUE,
         .instr .POP, .label 2, .swap 1, .jump 0],
       .label 0] := rfl

/-- The model's output for `progFnRetRead`, as pinned by test
`function_retparam_read`. -/
theorem model_fnRetRead :
    compileProgram progFnRetRead =
      [.labelRef 0, .jump 0,
       .funcBody [.label 1, .instr .ADDRESS, .instr .POP, .push 0, .dup 1, .push 0,
         .instr .SSTORE, .instr .CALLVALUE, .instr .POP, .label 2, .swap 1, .jump 0],
       .label 0] := rfl

/-- The model's output for `progFor1`, as pinned by test `for_1`. -/
theorem model_for1 :
    compileProgram progFor1 =
      [.push 0, .instr .POP, .label 0, .push 1, .instr .ISZERO, .labelRef 1, .instr .JUMPI,
       .push 3, .instr .POP, .label 2, .labelRef 0, .jump 0, .label 1, .push 2,
       .instr .POP] := rfl

/-- The model's output for `progFor2`, as pinned by test `for_2`. -/
theorem model_for2 :
    compileProgram progFor2 =
      [.push 0, .label 0, .push 1, .instr .ISZERO, .labelRef 1, .instr .JUMPI,
       .push 8, .swap 1, .instr .POP, .push 3, .instr .POP,
       .label 2, .labelRef 0, .jump 0, .label 1, .instr .POP, .push 2, .instr .POP] := rfl

/-- The model's output for `progFnParams`, as pinned by test
`function_params`. -/
theorem model_fnParams :
    compileProgram progFnParams =
      [.labelRef 0, .jump 0,
       .funcBody [.label 1, .instr .POP, .instr .POP, .label 2, .jump 0],
       .label 0] := rfl

end StackReuse

namespace StackReuse

/-- C8: compiling the block `{ let x }` allocates exactly one
zero-initialized stack slot and discards it at scope exit, emitting exactly
a push of the constant zero followed by a discard and nothing else. -/
theorem c8_single_var_zero_init_discard :
    compileProgram progSingleVar = [.push 0, .instr .POP] :=
  model_singleVar

/-- C5: compiling `{ let x := 1  x := 6  let y := 2  y := 4 }` emits two
independent single-slot lifetimes, each following initialize, reassign via
swap-then-pop, then discard — the concrete sequence `PUSH 1, PUSH 6, SWAP1,
POP, POP, PUSH 2, PUSH 4, SWAP1, POP, POP` — and nesting the second
lifetime in an inner block yields the identical sequence. -/
theorem c5_two_single_slot_lifetimes :
    compileProgram progMultiReuse =
      [.push 1, .push 6, .swap 1, .instr .POP, .instr .POP,
       .push 2, .push 4, .swap 1, .instr .POP, .instr .POP] ∧
    compileProgram progMultiReuseNested = compileProgram progMultiReuse :=
  ⟨model_multiReuse, model_multiReuseNested.trans model_multiReuse.symm⟩

/-- C1 counterexample: for `{ let x := 5 { let y := x sstore(y, y) } }`,
where the inner-scope `y` is initialized from the outer-scope `x`'s last
use, the claim predicts direct reuse of `x`'s slot — no duplicate for the
initializer and a single discard for the shared slot; the generated code
instead duplicates `x` into a fresh slot for `y` and discards two slots. -/
theorem c1_counterexample_not_same_scope :
    compileProgram progDeclNotSameScope =
      [.push 5, .dup 1, .dup 1, .dup 2, .instr .SSTORE, .instr .POP, .instr .POP] ∧
    countPops (compileProgram progDeclNotSameScope) = 2 ∧
    ¬ countPops (compileProgram progDeclNotSameScope) = 1 := by
  refine ⟨model_declNotSameScope, ?_, ?_⟩ <;> rw [model_declNotSameScope] <;> decide

/-- C1 amended: a declaration whose initializer is a bare reference to a
live variable always duplicates that variable first; when the reference is
the variable's last use and both share a scope, the duplicate is
immediately swapped into the dead variable's slot and the superseded value
popped, so the slot is reused and scope exit discards a single slot; when
the variable is still used later, or was declared in an outer scope, the
new variable keeps the fresh duplicated slot and both slots are discarded
separately. -/
theorem c1_amended_decl_reuse_same_scope_only :
    compileProgram progDeclLastUsed =
      [.push 5, .dup 1, .swap 1, .instr .POP, .dup 1, .dup 2, .instr .SSTORE, .instr .POP] ∧
    compileProgram progDeclNotLastUsed =
      [.push 5, .dup 1, .dup 2, .dup 2, .instr .SSTORE, .instr .POP, .instr .POP] ∧
    compileProgram progDeclNotSameScope =
      [.push 5, .dup 1, .dup 1, .dup 2, .instr .SSTORE, .instr .POP, .instr .POP] :=
  ⟨model_declLastUsed, model_declNotLastUsed, model_declNotSameScope⟩

/-- C6 counterexample: in
`function f(a, b, c, d) -> x, y { b := 3 let s := 9 y := 2 mstore(s, y) }`
the parameters `a`, `c` and `d` are entirely unused (zero references), yet
the run of discards at function entry (after the entry label) has length
one, not three: `c` and `d` are popped only after the body code for
`b := 3`, contradicting the claim that every entirely unused parameter is
discarded immediately at entry, before the body's remaining code. -/
theorem c6_counterexample_buried_unused_params :
    funcBodies (compileProgram progFnPartlyUnused) =
      [[.label 1, .instr .POP, .push 3, .swap 1, .instr .POP, .instr .POP, .instr .POP,
        .instr .POP, .push 0, .push 0, .push 9, .push 2, .swap 2, .instr .POP,
        .dup 2, .dup 2, .instr .MSTORE, .instr .POP, .label 2, .swap 1, .swap 2, .jump 0]] ∧
    wRefsSL 0 progFnPartlyUnused = 0 ∧
    wRefsSL 2 progFnPartlyUnused = 0 ∧
    wRefsSL 3 progFnPartlyUnused = 0 ∧
    leadPops ([Item.label 1, .instr .POP, .push 3, .swap 1, .instr .POP, .instr .POP,
        .instr .POP, .instr .POP, .push 0, .push 0, .push 9, .push 2, .swap 2, .instr .POP,
        .dup 2, .dup 2, .instr .MSTORE, .instr .POP, .label 2, .swap 1, .swap 2,
        .jump 0].drop 1) = 1 ∧
    ¬ leadPops ([Item.label 1, .instr .POP, .push 3, .swap 1, .instr .POP, .instr .POP,
        .instr .POP, .instr .POP, .push 0, .push 0, .push 9, .push 2, .swap 2, .instr .POP,
        .dup 2, .dup 2, .instr .MSTORE, .instr .POP, .label 2, .swap 1, .swap 2,
        .jump 0].drop 1) = 3 := by
  refine ⟨?_, by decide, by decide, by decide, by decide, by decide⟩
  rw [model_fnPartlyUnused]; rfl

/-- C6 amended: only the contiguous topmost run of unused parameters is
popped immediately at function entry; an unused parameter buried below a
still-live one is scheduled and popped once the live value above it dies;
at the return, live values are brought into the return-value positions by
the exit swaps and leftover parameter slots are popped there. -/
theorem c6_amended_param_discard_and_return :
    compileProgram progFnPartlyUnused =
      [.labelRef 0, .jump 0,
       .funcBody [.label 1, .instr .POP, .push 3, .swap 1, .instr .POP, .instr .POP,
         .instr .POP, .instr .POP, .push 0, .push 0, .push 9, .push 2, .swap 2, .instr .POP,
         .dup 2, .dup 2, .instr .MSTORE, .instr .POP, .label 2, .swap 1, .swap 2, .jump 0],
       .label 0] ∧
    compileProgram progFnArgReuse =
      [.labelRef 0, .jump 0,
       .funcBody [.label 1, .instr .ADDRESS, .instr .POP, .dup 3, .dup 2, .instr .SSTORE,
         .instr .POP, .instr .CALLVALUE, .instr .POP, .push 0, .swap 2, .instr .POP,
         .dup 1, .swap 2, .instr .POP, .instr .POP, .label 2, .swap 1, .jump 0],
       .label 0] :=
  ⟨model_fnPartlyUnused, model_fnArgReuse⟩

/-- C9 counterexample: in
`function f() -> x { pop(address()) let y := callvalue() }` the return
parameter `x` is never read nor assigned (zero syntactic references), so
the claim predicts its zero-initialization immediately before the
function-exit junction; the generated body instead initializes `x` before
the declaration statement, with the `CALLVALUE`/`POP` code in between, and
no push-zero is adjacent to a jump destination anywhere in the body. -/
theorem c9_counterexample_retparam_declaration :
    funcBodies (compileProgram progFnRetDecl) =
      [[.label 1, .instr .ADDRESS, .instr .POP, .push 0, .instr .CALLVALUE, .instr .POP,
        .label 2, .swap 1, .jump 0]] ∧
    onceSL 0 progFnRetDecl = 0 ∧
    hasInitBeforeLabel [.label 1, .instr .ADDRESS, .instr .POP, .push 0, .instr .CALLVALUE,
      .instr .POP, .label 2, .swap 1, .jump 0] = false := by
  refine ⟨?_, by decide, by decide⟩
  rw [model_fnRetDecl]; rfl

/-- C9 amended: the zero-initialization of an unassigned return parameter
is delayed, but only past leading expression statements and assignments
that reference no return parameter; the first other statement — a
declaration, block, conditional, loop — or the first statement referencing
a return parameter triggers the initialization just before itself, and if
no statement triggers it, it happens at the end of the body, immediately
before the exit junction. -/
theorem c9_amended_delayed_retparam_init :
    compileProgram progFnRetDecl =
      [.labelRef 0, .jump 0,
       .funcBody [.label 1, .instr .ADDRESS, .instr .POP, .push 0, .instr .CALLVALUE,
         .instr .POP, .label 2, .swap 1, .jump 0],
       .label 0] ∧
    compileProgram progFnRetRead =
      [.labelRef 0, .jump 0,
       .funcBody [.label 1, .instr .ADDRESS, .instr .POP, .push 0, .dup 1, .push 0,
         .instr .SSTORE, .instr .CALLVALUE, .instr .POP, .label 2, .swap 1, .jump 0],
       .label 0] ∧
    compileProgram progFnRetUnassigned =
      [.labelRef 0, .jump 0,
       .funcBody [.label 1, .instr .CALLVALUE, .instr .POP, .push 0, .label 2, .swap 1,
         .jump 0],
       .label 0] ∧
    hasInitBeforeLabel [.label 1, .instr .CALLVALUE, .instr .POP, .push 0, .label 2,
      .swap 1, .jump 0] = true :=
  ⟨model_fnRetDecl, model_fnRetRead, model_fnRetUnassigned, by decide⟩

end StackReuse

namespace AsmCodeGen

/-- C10: every call of the assembly adapter's `appendBeginsub`,
`appendJumpsub` or `appendReturnsub` fails unconditionally with the
corresponding assertion — these subroutine operations are never emitted for
EVM 1.0 — for all argument values. -/
theorem c10_subroutine_ops_always_assert :
    ∀ (lbl : Nat) (a r d : Int),
      appendBeginsub lbl a =
        .error (.assertionFailure "BEGINSUB not implemented for EVM 1.0") ∧
      appendJumpsub lbl a r =
        .error (.assertionFailure "JUMPSUB not implemented for EVM 1.0") ∧
      appendReturnsub r d =
        .error (.assertionFailure "RETURNSUB not implemented for EVM 1.0") :=
  fun _ _ _ _ => ⟨rfl, rfl, rfl⟩

/-- C2: a `StackTooDeep` fault raised by the code transform is caught by
`CodeGenerator::assemble` and surfaced as a user-facing compilation error
carrying the fault's context message; assembly returns normally only when
no stack error is left behind, and recorded-but-unthrown stack errors trip
the final assertion instead of being silently swallowed. -/
theorem c2_stack_too_deep_propagates :
    (∀ e : StackTooDeepError,
        assemble (.threw e) = .error (.compilerError (stackTooDeepMessage e))) ∧
    (∀ t : TransformOutcome, assemble t = .ok () → stackErrorsOf t = []) ∧
    (∀ errs : List StackTooDeepError, errs ≠ [] →
        assemble (.completed errs) =
          .error (.assertionFailure "Stack errors present but not thrown.")) := by
  refine ⟨fun e => rfl, ?_, ?_⟩
  · intro t h
    cases t with
    | threw e => simp [assemble] at h
    | completed errs =>
        cases errs with
        | nil => rfl
        | cons a l => simp [assemble, yulAssert] at h
  · intro errs h
    cases errs with
    | nil => exact absurd rfl h
    | cons a l => simp [assemble, yulAssert]

/-- C2 witness: concrete outcomes of `assemble` — a thrown fault with a
context message becomes the compiler error, a clean completion reports no
stack errors, and a completion with a recorded stack error fails the final
assertion. -/
theorem c2_stack_too_deep_propagates_witness :
    assemble (.threw ⟨some "ctx"⟩) =
      .error (.compilerError (stackTooDeepMessage ⟨some "ctx"⟩)) ∧
    stackErrorsOf (.completed []) = [] ∧
    assemble (.completed [⟨none⟩]) =
      .error (.assertionFailure "Stack errors present but not thrown.") :=
  ⟨c2_stack_too_deep_propagates.1 ⟨some "ctx"⟩,
   c2_stack_too_deep_propagates.2.1 (.completed []) rfl,
   c2_stack_too_deep_propagates.2.2 [⟨none⟩] (by simp)⟩

end AsmCodeGen

namespace Planner

/-- A successful run of `reconcile` ends in a layout that satisfies the
target. -/
theorem reconcile_satisfies :
    ∀ (fuel : Nat) (cur tgt : List (Option Nat)) (ops : List SOp)
      (fin : List (Option Nat)),
      reconcile fuel cur tgt = some (ops, fin) → matchesTgt fin tgt = true := by
  intro fuel
  induction fuel with
  | zero => intro cur tgt ops fin h; simp [reconcile] at h
  | succ n ih =>
      intro cur tgt ops fin h
      rw [reconcile] at h
      cases hm : matchesTgt cur tgt with
      | true =>
          simp only [hm, if_true] at h
          have hfin : fin = cur := (congrArg Prod.snd (Option.some.inj h)).symm
          exact hfin ▸ hm
      | false =>
          simp only [hm, Bool.false_eq_true, if_false] at h
          cases hp : planStep cur tgt with
          | none => simp [hp] at h
          | some q =>
              simp only [hp] at h
              cases hr : reconcile n q.2 tgt with
              | none => simp [hr] at h
              | some r =>
                  simp only [hr] at h
                  have hfin : fin = r.2 := (congrArg Prod.snd (Option.some.inj h)).symm
                  exact hfin ▸ ih q.2 tgt r.1 r.2 hr

/-- A layout that already satisfies the target reconciles with zero
operations. -/
theorem reconcile_of_matches (fuel : Nat) (cur tgt : List (Option Nat))
    (h : matchesTgt cur tgt = true) :
    reconcile (fuel + 1) cur tgt = some ([], cur) := by
  simp [reconcile, h]

/-- C7: `reconcile` is idempotent — whenever a run of the Shuffle
Planner's `reconcile` transforms a layout to meet a target, running it
again on the resulting layout against the same target emits zero stack
operations. -/
theorem c7_reconcile_idempotent :
    ∀ (fuel : Nat) (cur tgt : List (Option Nat)) (ops : List SOp)
      (fin : List (Option Nat)),
      reconcile fuel cur tgt = some (ops, fin) →
      ∀ g : Nat, reconcile (g + 1) fin tgt = some ([], fin) :=
  fun fuel cur tgt ops fin h g =>
    reconcile_of_matches g fin tgt (reconcile_satisfies fuel cur tgt ops fin h)

/-- C7 witness: a two-slot layout needing one swap reconciles in one
operation, and re-running `reconcile` on the reconciled layout emits zero
operations. -/
theorem c7_reconcile_idempotent_witness :
    reconcile 3 [some 1, some 2] [some 2, some 1] =
      some ([.swapDepth 1], [some 2, some 1]) ∧
    reconcile 1 [some 2, some 1] [some 2, some 1] = some ([], [some 2, some 1]) :=
  ⟨rfl, c7_reconcile_idempotent 3 [some 1, some 2] [some 2, some 1]
      [.swapDepth 1] [some 2, some 1] rfl 0⟩

end Planner
